import Mathlib

/-!
Shallow embedding of `wxmplot/interactive.py`.

The module is stateful glue code: two process-wide registries of plot and
image windows keyed by a clamped integer handle, a lazily constructed GUI
application singleton, a process-wide default theme name, and a family of
thin forwarders that resolve a window through the registries and delegate a
drawing call to it.

Modelling conventions, used uniformly below:
* The module never computes with the floating-point coordinates, array data
  or clock values it forwards; those arguments are carried as opaque `Int`,
  `List Int` and `Nat` tokens.
* Window objects and the wx application object are identified by allocation
  ids (`oid`), drawn from a counter `nextOid` in the state; identity of two
  Python objects is equality of their ids.
* Calls delegated to the external toolkit (PlotFrame/ImageFrame methods,
  matplotlib axes/canvas methods, wx methods) are recorded in a log
  `calls`, newest entry first.
* Python exceptions are `Except` errors; a raising call returns the state
  as mutated up to the raise point.
-/

set_option autoImplicit false
set_option linter.unusedVariables false

namespace Wxmplot

/-- Values a Python keyword argument carries in this module: strings,
numbers (abstracted to `Int`), booleans, arrays, size pairs, and `None`. -/
inductive KwVal where
  | str (s : String)
  | int (n : Int)
  | bool (b : Bool)
  | arr (a : List Int)
  | size (w h : Int)
  | pynone
deriving Repr, DecidableEq

/-- A Python `**kws` dictionary, as an insertion-ordered association list. -/
abbrev KwArgs := List (String × KwVal)

/-- `k in kws` on a Python dict. -/
def kwContains : KwArgs → String → Bool
  | [], _ => false
  | p :: rest, k => p.1 == k || kwContains rest k

/-- `kws.get(k)` on a Python dict. -/
def kwGet : KwArgs → String → Option KwVal
  | [], _ => none
  | p :: rest, k => if p.1 == k then some p.2 else kwGet rest k

/-- Overwrite the value stored at an existing key, keeping insertion order. -/
def kwOverwrite : KwArgs → String → KwVal → KwArgs
  | [], _, _ => []
  | p :: rest, k, v =>
      if p.1 == k then (k, v) :: kwOverwrite rest k v else p :: kwOverwrite rest k v

/-- `kws[k] = v` (also `kws.update({k: v})`) on a Python dict: overwrite in
place when the key is present, append otherwise. -/
def kwSet (kws : KwArgs) (k : String) (v : KwVal) : KwArgs :=
  if kwContains kws k then kwOverwrite kws k v else kws ++ [(k, v)]

/-- Remove a key from a Python dict. -/
def kwErase : KwArgs → String → KwArgs
  | [], _ => []
  | p :: rest, k => if p.1 == k then kwErase rest k else p :: kwErase rest k

/-- Python truthiness, used when a `**kws` entry is bound to a boolean
parameter. -/
def pyTruthy : KwVal → Bool
  | .bool b => b
  | .int n => n != 0
  | .str s => s != ""
  | .arr a => !a.isEmpty
  | .size _ _ => true
  | .pynone => false

/-- Bind an optional `**kws` entry to a boolean parameter whose default is
`False`. -/
def kwBool (o : Option KwVal) : Bool :=
  match o with
  | some v => pyTruthy v
  | none => false

/-- Bind an optional `**kws` entry to a size parameter whose default is
`None`. -/
def kwSize (o : Option KwVal) : Option (Int × Int) :=
  match o with
  | some (.size w h) => some (w, h)
  | _ => none

/-- Bind an optional `**kws` entry to a string parameter whose default is
`None`. -/
def kwStr (o : Option KwVal) : Option String :=
  match o with
  | some (.str t) => some t
  | _ => none

/-- Python `str.lower()` (the theme names involved are ASCII). -/
def pyLower (s : String) : String := String.mk (s.data.map Char.toLower)

/-- One call delegated to the external windowing/plotting toolkit.  Each
constructor records the target object's id and the arguments forwarded. -/
inductive DrawCall where
  | setSize (oid : Nat) (sz : Int × Int)
  | show (oid : Nat)
  | raise (oid : Nat)
  | destroy (oid : Nat)
  | plotNew (oid : Nat) (x y : List Int) (kws : KwArgs)
  | oplot (oid : Nat) (x y : List Int) (kws : KwArgs)
  | updateLine (oid : Nat) (trace : Int) (x y : List Int) (draw : Bool) (kws : KwArgs)
  | setXYLims (oid : Nat) (xmin xmax ymin ymax : Option Int)
  | addText (oid : Nat) (text : String) (x y : Int) (rotation : Option Int)
      (ha va : String) (kws : KwArgs)
  | addArrow (oid : Nat) (x1 y1 x2 y2 : Int) (side shape color : String)
      (width headWidth headLength : Int) (kws : KwArgs)
  | axhline (oid : Nat) (y xmin xmax : Int) (kws : KwArgs)
  | axvline (oid : Nat) (x ymin ymax : Int) (kws : KwArgs)
  | canvasDraw (oid : Nat)
  | axesClear (oid : Nat)
  | histDraw (oid : Nat) (x : List Int) (bins : Int) (kws : KwArgs)
  | setTitle (oid : Nat) (t : String)
  | display (oid : Nat) (map : List (List Int)) (x y : Option (List Int))
      (colormap : Option String) (kws : KwArgs)
deriving Repr, DecidableEq

/-- Python exceptions raised (or raisable) by this module. -/
inductive PyErr where
  | valueError
  | nameError
deriving Repr, DecidableEq

/-- A `PlotDisplay` object: a PlotFrame plus the module's bookkeeping
(`self.window`, `self.cursor_hist`). -/
structure PlotDisplay where
  oid : Nat
  window : Nat
  wintitle : String
  theme : String
  cursor_hist : List (Int × Int × Nat)
deriving Repr, DecidableEq

/-- An `ImageDisplay` object: an ImageFrame plus the module's bookkeeping. -/
structure ImageDisplay where
  oid : Nat
  window : Nat
  wintitle : String
  cursor_hist : List (Int × Int × Int × Int × Nat)
deriving Repr, DecidableEq

/-- The module-level mutable state: the two registries `PLOT_DISPLAYS` and
`IMG_DISPLAYS`, the current `DEFAULT_THEME`, the `wxapp` global, plus the
modelling bookkeeping (`envApp`: the app `wx.GetApp()` would find already
running, `appsMade`: how many `wx.App(...)` constructions happened,
`nextOid`: the id allocator, `calls`: the log of delegated calls). -/
structure IState where
  PLOT_DISPLAYS : List (Nat × PlotDisplay)
  IMG_DISPLAYS : List (Nat × ImageDisplay)
  DEFAULT_THEME : String
  wxapp : Option Nat
  envApp : Option Nat
  appsMade : Nat
  nextOid : Nat
  calls : List DrawCall
deriving Repr, DecidableEq

/-- The module state right after import: empty registries, theme "light",
no wx application yet. -/
def initState : IState :=
  { PLOT_DISPLAYS := [], IMG_DISPLAYS := [], DEFAULT_THEME := "light",
    wxapp := none, envApp := none, appsMade := 0, nextOid := 0, calls := [] }

/-- A sample plot window object, as `get_plot_window(1)` builds on a fresh
state, used as concrete input in witnesses. -/
def sampleDisplay : PlotDisplay :=
  { oid := 0, window := 1, wintitle := "Plot Window 1", theme := "light",
    cursor_hist := [] }

/-- A sample image window object used as concrete input in witnesses. -/
def sampleImage : ImageDisplay :=
  { oid := 1, window := 1, wintitle := "Image Window 1", cursor_hist := [] }

/-- A sample module state with the sample plot window registered at
handle 1, used as concrete input in witnesses. -/
def sampleState : IState :=
  { PLOT_DISPLAYS := [(1, sampleDisplay)], IMG_DISPLAYS := [],
    DEFAULT_THEME := "light", wxapp := some 1, envApp := none,
    appsMade := 1, nextOid := 2, calls := [] }

/-- Dictionary lookup in a registry. -/
def regFind {α : Type} : List (Nat × α) → Nat → Option α
  | [], _ => none
  | (k, v) :: rest, w => if k = w then some v else regFind rest w

/-- `registry.pop(w)`'s effect on the mapping: drop the entries keyed `w`. -/
def regErase {α : Type} : List (Nat × α) → Nat → List (Nat × α)
  | [], _ => []
  | (k, v) :: rest, w => if k = w then regErase rest w else (k, v) :: regErase rest w

/-- In-place mutation of the object stored at key `w` (Python objects are
mutated through the registry reference; keys are untouched). -/
def regUpdate {α : Type} : List (Nat × α) → Nat → (α → α) → List (Nat × α)
  | [], _, _ => []
  | (k, v) :: rest, w, f =>
      if k = w then (k, f v) :: regUpdate rest w f
      else (k, v) :: regUpdate rest w f

def MAX_WINDOWS : Nat := 100
def MAX_CURSHIST : Nat := 100

/-- Line 194 / 218: `win = max(1, min(MAX_WINDOWS, int(abs(win))))`. -/
def clamp_win (win : Int) : Nat := max 1 (min MAX_WINDOWS win.natAbs)

/-- `get_wxapp(redirect, clearSigInt)`: reuse the `wxapp` global; else take
the app already running in the environment (`wx.GetApp()`); else construct
a fresh `wx.App` (the two arguments only configure that external
constructor). -/
def get_wxapp (redirect clearSigInt : Bool) (s : IState) : Nat × IState :=
  match s.wxapp with
  | some a => (a, s)
  | none =>
    match s.envApp with
    | some a => (a, { s with wxapp := some a })
    | none =>
      (s.nextOid, { s with wxapp := some s.nextOid, appsMade := s.appsMade + 1,
                           nextOid := s.nextOid + 1 })

/-- Modelled from the spec: the theme table `Themes` is imported from
`wxmplot.config`, which is not among the sources here; its key list is
taken verbatim from the spec's `available_themes` enumeration. -/
def Themes : List String :=
  ["light", "dark", "matplotlib", "seaborn", "ggplot", "bmh",
   "fivethirtyeight", "grayscale", "dark_background",
   "tableau-colorblind10", "seaborn-bright", "seaborn-colorblind",
   "seaborn-dark", "seaborn-darkgrid", "seaborn-dark-palette",
   "seaborn-deep", "seaborn-notebook", "seaborn-muted",
   "seaborn-pastel", "seaborn-paper", "seaborn-poster", "seaborn-talk",
   "seaborn-ticks", "seaborn-white", "seaborn-whitegrid",
   "Solarize_Light2"]

/-- `set_theme(theme)`: accept `theme.lower()` when it is a known theme
key, else raise `ValueError`. -/
def set_theme (theme : String) (s : IState) : Except PyErr Unit × IState :=
  if Themes.contains (pyLower theme) then
    (Except.ok (), { s with DEFAULT_THEME := pyLower theme })
  else
    (Except.error PyErr.valueError, s)

/-- `available_themes()`: the list of theme keys (independent of the module
state). -/
def available_themes (s : IState) : List String := Themes

/-- `PlotDisplay.__init__(window, size, theme, wintitle)`: ensure the wx
app exists, default the theme to `DEFAULT_THEME` and the title to
`'Plot Window %i' % window`, create the frame (a fresh object id), apply
the size, show and raise it, and register it under `window` when that key
is free. -/
def PlotDisplay.init (window : Nat) (size : Option (Int × Int))
    (theme : Option String) (wintitle : Option String) (s : IState) :
    PlotDisplay × IState :=
  let s1 := (get_wxapp false true s).2
  let th := theme.getD s1.DEFAULT_THEME
  let wt := wintitle.getD ("Plot Window " ++ toString window)
  let d : PlotDisplay :=
    { oid := s1.nextOid, window := window, wintitle := wt, theme := th,
      cursor_hist := [] }
  let s2 := { s1 with nextOid := s1.nextOid + 1 }
  let s3 := match size with
    | some sz => { s2 with calls := DrawCall.setSize d.oid sz :: s2.calls }
    | none => s2
  let s4 := { s3 with calls := DrawCall.raise d.oid :: DrawCall.show d.oid :: s3.calls }
  let s5 := if (regFind s4.PLOT_DISPLAYS window).isSome then s4
            else { s4 with PLOT_DISPLAYS := (window, d) :: s4.PLOT_DISPLAYS }
  (d, s5)

/-- `PlotDisplay.onExit`: drop this window's handle from `PLOT_DISPLAYS`
when present, then destroy the frame. -/
def PlotDisplay.onExit (d : PlotDisplay) (s : IState) : IState :=
  let s1 := if (regFind s.PLOT_DISPLAYS d.window).isSome
            then { s with PLOT_DISPLAYS := regErase s.PLOT_DISPLAYS d.window }
            else s
  { s1 with calls := DrawCall.destroy d.oid :: s1.calls }

/-- `PlotDisplay.onCursor(x, y)`: prepend `(x, y, time.time())` to
`cursor_hist`, truncating past `MAX_CURSHIST` entries (the clock value is
supplied as the argument `t`). -/
def PlotDisplay.onCursor (d : PlotDisplay) (x y : Int) (t : Nat) : PlotDisplay :=
  let hist := (x, y, t) :: d.cursor_hist
  let hist := if MAX_CURSHIST < hist.length then hist.take MAX_CURSHIST else hist
  { d with cursor_hist := hist }

/-- `ImageDisplay.__init__(window, size, wintitle)`: ensure the wx app
exists, default the title to `'Image Window %i' % window`, create the
frame, apply the size, show and raise it, and register it under
`self.window` when that key is free. -/
def ImageDisplay.init (window : Nat) (size : Option (Int × Int))
    (wintitle : Option String) (s : IState) : ImageDisplay × IState :=
  let s1 := (get_wxapp false true s).2
  let wt := wintitle.getD ("Image Window " ++ toString window)
  let d : ImageDisplay :=
    { oid := s1.nextOid, window := window, wintitle := wt, cursor_hist := [] }
  let s2 := { s1 with nextOid := s1.nextOid + 1 }
  let s3 := match size with
    | some sz => { s2 with calls := DrawCall.setSize d.oid sz :: s2.calls }
    | none => s2
  let s4 := { s3 with calls := DrawCall.raise d.oid :: DrawCall.show d.oid :: s3.calls }
  let s5 := if (regFind s4.IMG_DISPLAYS window).isSome then s4
            else { s4 with IMG_DISPLAYS := (window, d) :: s4.IMG_DISPLAYS }
  (d, s5)

/-- `ImageDisplay.onExit`: drop this window's handle from `IMG_DISPLAYS`
when present, then destroy the frame. -/
def ImageDisplay.onExit (d : ImageDisplay) (s : IState) : IState :=
  let s1 := if (regFind s.IMG_DISPLAYS d.window).isSome
            then { s with IMG_DISPLAYS := regErase s.IMG_DISPLAYS d.window }
            else s
  { s1 with calls := DrawCall.destroy d.oid :: s1.calls }

/-- `ImageDisplay.onCursor(x, y, ix, iy)`: prepend
`(x, y, ix, iy, time.time())` to `cursor_hist`, truncating past
`MAX_CURSHIST` entries. -/
def ImageDisplay.onCursor (d : ImageDisplay) (x y ix iy : Int) (t : Nat) :
    ImageDisplay :=
  let hist := (x, y, ix, iy, t) :: d.cursor_hist
  let hist := if MAX_CURSHIST < hist.length then hist.take MAX_CURSHIST else hist
  { d with cursor_hist := hist }

/-- `get_plot_window(win, size, wintitle, theme)`: clamp the handle, return
the registered display when the clamped handle is present, else construct
(and thereby register) a new `PlotDisplay`. -/
def get_plot_window (win : Int) (size : Option (Int × Int))
    (wintitle : Option String) (theme : Option String) (s : IState) :
    PlotDisplay × IState :=
  let w := clamp_win win
  match regFind s.PLOT_DISPLAYS w with
  | some display => (display, s)
  | none => PlotDisplay.init w size theme wintitle s

/-- `get_image_window(win, size, wintitle)`: clamp the handle; when the
clamped handle is present the source (line 220) evaluates
`IMG_DISPLAY[win]`, and the name `IMG_DISPLAY` is defined nowhere in the
module, so that branch raises a `NameError`; otherwise construct (and
thereby register) a new `ImageDisplay`. -/
def get_image_window (win : Int) (size : Option (Int × Int))
    (wintitle : Option String) (s : IState) :
    Except PyErr ImageDisplay × IState :=
  let w := clamp_win win
  match regFind s.IMG_DISPLAYS w with
  | some _ => (Except.error PyErr.nameError, s)
  | none =>
    let r := ImageDisplay.init w size wintitle s
    (Except.ok r.1, r.2)

/-- `plot(x, y, win, new, size, wintitle, theme, **kws)`: resolve the
window, raise it, then delegate `plotter.plot` (when `new`) or
`plotter.oplot` with the styling keywords.  The source's
`if plotter is None: return` branch is unreachable because
`get_plot_window` always returns a display. -/
def plot (x y : List Int) (win : Int) (new : Bool) (size : Option (Int × Int))
    (wintitle : Option String) (theme : Option String) (kws : KwArgs)
    (s : IState) : Option PlotDisplay × IState :=
  let r := get_plot_window win size wintitle theme s
  let plotter := r.1
  let s1 := { r.2 with calls := DrawCall.raise plotter.oid :: r.2.calls }
  let s2 := if new then { s1 with calls := DrawCall.plotNew plotter.oid x y kws :: s1.calls }
            else { s1 with calls := DrawCall.oplot plotter.oid x y kws :: s1.calls }
  (some plotter, s2)

/-- The Python call `plot(x, y, win=win, wintitle=wintitle, **kws)`: the
dict entries named `new`, `size` and `theme` bind to `plot`'s parameters of
those names (with defaults `False`, `None`, `None`), the rest stay in
`plot`'s own `**kws`. -/
def plot_splat (x y : List Int) (win : Int) (wintitle : Option String)
    (kws : KwArgs) (s : IState) : Option PlotDisplay × IState :=
  plot x y win (kwBool (kwGet kws "new")) (kwSize (kwGet kws "size")) wintitle
    (kwStr (kwGet kws "theme"))
    (kwErase (kwErase (kwErase kws "new") "size") "theme") s

/-- `newplot(x, y, win, wintitle, **kws)`: set `kws['new'] = True` and call
`plot(x, y, win=win, wintitle=wintitle, **kws)`. -/
def newplot (x y : List Int) (win : Int) (wintitle : Option String)
    (kws : KwArgs) (s : IState) : Option PlotDisplay × IState :=
  plot_splat x y win wintitle (kwSet kws "new" (KwVal.bool true)) s

/-- `update_trace(x, y, trace, win, **kws)`: resolve the window, raise it,
and delegate `panel.update_line(trace - 1, x, y, draw=True, **kws)`. -/
def update_trace (x y : List Int) (trace : Int) (win : Int) (kws : KwArgs)
    (s : IState) : IState :=
  let r := get_plot_window win none none none s
  let s1 := { r.2 with calls := DrawCall.raise r.1.oid :: r.2.calls }
  { s1 with calls := DrawCall.updateLine r.1.oid (trace - 1) x y true kws :: s1.calls }

/-- `plot_setlimits(xmin, xmax, ymin, ymax, win)`: resolve the window and
delegate `panel.set_xylims((xmin, xmax, ymin, ymax))` (no raise here in the
source). -/
def plot_setlimits (xmin xmax ymin ymax : Option Int) (win : Int) (s : IState) :
    IState :=
  let r := get_plot_window win none none none s
  { r.2 with calls := DrawCall.setXYLims r.1.oid xmin xmax ymin ymax :: r.2.calls }

/-- `plot_text(text, x, y, win, rotation, ha, va, side, size, **kws)`:
resolve the window, raise it, delegate `add_text`; the `side` argument is
accepted but not forwarded by the source. -/
def plot_text (text : String) (x y : Int) (win : Int) (rotation : Option Int)
    (ha va side : String) (size : Option (Int × Int)) (kws : KwArgs)
    (s : IState) : IState :=
  let r := get_plot_window win size none none s
  let s1 := { r.2 with calls := DrawCall.raise r.1.oid :: r.2.calls }
  { s1 with calls := DrawCall.addText r.1.oid text x y rotation ha va kws :: s1.calls }

/-- `plot_arrow(x1, y1, x2, y2, win, side, shape, color, width,
head_width, head_length, size, **kws)`: resolve the window, raise it,
delegate `add_arrow` with the named styling arguments and `**kws`. -/
def plot_arrow (x1 y1 x2 y2 : Int) (win : Int) (side shape color : String)
    (width head_width head_length : Int) (size : Option (Int × Int))
    (kws : KwArgs) (s : IState) : IState :=
  let r := get_plot_window win size none none s
  let s1 := { r.2 with calls := DrawCall.raise r.1.oid :: r.2.calls }
  let c := DrawCall.addArrow r.1.oid x1 y1 x2 y2 side shape color
      width head_width head_length kws
  { s1 with calls := c :: s1.calls }

/-- `plot_marker(x, y, marker, size, color, label, win, **kws)`: resolve
the window (with `size=None`), raise it, delegate
`oplot([x], [y], marker=..., markersize=..., label=..., color=..., **kws)`. -/
def plot_marker (x y : Int) (marker : String) (size : Int) (color : String)
    (label : String) (win : Int) (kws : KwArgs) (s : IState) : IState :=
  let r := get_plot_window win none none none s
  let s1 := { r.2 with calls := DrawCall.raise r.1.oid :: r.2.calls }
  let c := DrawCall.oplot r.1.oid [x] [y]
      ([("marker", KwVal.str marker), ("markersize", KwVal.int size),
        ("label", KwVal.str label), ("color", KwVal.str color)] ++ kws)
  { s1 with calls := c :: s1.calls }

/-- `plot_axhline(y, xmin, xmax, win, size, delay_draw, **kws)`: resolve
the window, raise it, default `kws['label']` to `'_nolegend_'` when absent,
delegate `axes.axhline`, and (as the source is written) call
`canvas.draw()` exactly when `delay_draw` is true. -/
def plot_axhline (y : Int) (xmin xmax : Int) (win : Int)
    (size : Option (Int × Int)) (delay_draw : Bool) (kws : KwArgs)
    (s : IState) : IState :=
  let r := get_plot_window win size none none s
  let s1 := { r.2 with calls := DrawCall.raise r.1.oid :: r.2.calls }
  let kws1 := if kwContains kws "label" then kws
              else kwSet kws "label" (KwVal.str "_nolegend_")
  let s2 := { s1 with calls := DrawCall.axhline r.1.oid y xmin xmax kws1 :: s1.calls }
  if delay_draw then { s2 with calls := DrawCall.canvasDraw r.1.oid :: s2.calls }
  else s2

/-- `plot_axvline(x, ymin, ymax, win, size, delay_draw, **kws)`: resolve
the window, raise it, default `kws['label']` to `'_nolegend_'` when absent,
delegate `axes.axvline`, and call `canvas.draw()` exactly when
`delay_draw` is false. -/
def plot_axvline (x : Int) (ymin ymax : Int) (win : Int)
    (size : Option (Int × Int)) (delay_draw : Bool) (kws : KwArgs)
    (s : IState) : IState :=
  let r := get_plot_window win size none none s
  let s1 := { r.2 with calls := DrawCall.raise r.1.oid :: r.2.calls }
  let kws1 := if kwContains kws "label" then kws
              else kwSet kws "label" (KwVal.str "_nolegend_")
  let s2 := { s1 with calls := DrawCall.axvline r.1.oid x ymin ymax kws1 :: s1.calls }
  if delay_draw then s2
  else { s2 with calls := DrawCall.canvasDraw r.1.oid :: s2.calls }

/-- `hist(x, bins, win, new, size, force_draw, title, **kws)`: resolve the
window, raise it, clear the axes when `new`, delegate `axes.hist`, set the
title when given, and draw the canvas (`force_draw` is accepted but unused
by the source). -/
def hist (x : List Int) (bins : Int) (win : Int) (new : Bool)
    (size : Option (Int × Int)) (force_draw : Bool) (title : Option String)
    (kws : KwArgs) (s : IState) : IState :=
  let r := get_plot_window win size none none s
  let s1 := { r.2 with calls := DrawCall.raise r.1.oid :: r.2.calls }
  let s2 := if new then { s1 with calls := DrawCall.axesClear r.1.oid :: s1.calls }
            else s1
  let s3 := { s2 with calls := DrawCall.histDraw r.1.oid x bins kws :: s2.calls }
  let s4 := match title with
    | some t => { s3 with calls := DrawCall.setTitle r.1.oid t :: s3.calls }
    | none => s3
  { s4 with calls := DrawCall.canvasDraw r.1.oid :: s4.calls }

/-- `imshow(map, x, y, colormap, win, wintitle, size, **kws)`: resolve the
image window (propagating its `NameError` when it raises) and delegate
`img.display(map, x=x, y=y, colormap=colormap, **kws)`. -/
def imshow (map : List (List Int)) (x y : Option (List Int))
    (colormap : Option String) (win : Int) (wintitle : Option String)
    (size : Option (Int × Int)) (kws : KwArgs) (s : IState) :
    Except PyErr ImageDisplay × IState :=
  let r := get_image_window win size wintitle s
  match r.1 with
  | Except.error e => (Except.error e, r.2)
  | Except.ok img =>
      (Except.ok img,
       { r.2 with calls := DrawCall.display img.oid map x y colormap kws :: r.2.calls })

/-- `contour(map, x, y, **kws)`: set `kws['style'] = 'contour'`
(`kws.update(dict(style='contour'))`) and call `imshow(map, x=x, y=y,
**kws)`; the `colormap`, `win`, `wintitle` and `size` parameters here model
the `**kws` entries that bind to `imshow`'s parameters of those names. -/
def contour (map : List (List Int)) (x y : Option (List Int))
    (colormap : Option String) (win : Int) (wintitle : Option String)
    (size : Option (Int × Int)) (kws : KwArgs) (s : IState) :
    Except PyErr Unit × IState :=
  let kws1 := kwSet kws "style" (KwVal.str "contour")
  let r := imshow map x y colormap win wintitle size kws1 s
  match r.1 with
  | Except.error e => (Except.error e, r.2)
  | Except.ok _ => (Except.ok (), r.2)

/-- The cursor callback firing on the plot window registered at handle
`w` (the panel mutates the display object through its registry
reference). -/
def plot_cursor (w : Nat) (x y : Int) (t : Nat) (s : IState) : IState :=
  { s with PLOT_DISPLAYS := regUpdate s.PLOT_DISPLAYS w (fun d => d.onCursor x y t) }

/-- The cursor callback firing on the image window registered at handle
`w`. -/
def image_cursor (w : Nat) (x y ix iy : Int) (t : Nat) (s : IState) : IState :=
  { s with IMG_DISPLAYS := regUpdate s.IMG_DISPLAYS w (fun d => d.onCursor x y ix iy t) }

/-- Every state-touching operation of the module other than the two exit
callbacks, with its arguments. -/
inductive Op where
  | opGetWxapp (redirect clearSigInt : Bool)
  | opSetTheme (theme : String)
  | opGetPlotWindow (win : Int) (size : Option (Int × Int)) (wintitle theme : Option String)
  | opGetImageWindow (win : Int) (size : Option (Int × Int)) (wintitle : Option String)
  | opPlot (x y : List Int) (win : Int) (new : Bool) (size : Option (Int × Int))
      (wintitle theme : Option String) (kws : KwArgs)
  | opNewplot (x y : List Int) (win : Int) (wintitle : Option String) (kws : KwArgs)
  | opUpdateTrace (x y : List Int) (trace : Int) (win : Int) (kws : KwArgs)
  | opPlotSetlimits (xmin xmax ymin ymax : Option Int) (win : Int)
  | opPlotText (text : String) (x y : Int) (win : Int) (rotation : Option Int)
      (ha va side : String) (size : Option (Int × Int)) (kws : KwArgs)
  | opPlotArrow (x1 y1 x2 y2 : Int) (win : Int) (side shape color : String)
      (width headWidth headLength : Int) (size : Option (Int × Int)) (kws : KwArgs)
  | opPlotMarker (x y : Int) (marker : String) (size : Int) (color label : String)
      (win : Int) (kws : KwArgs)
  | opPlotAxhline (y xmin xmax : Int) (win : Int) (size : Option (Int × Int))
      (delayDraw : Bool) (kws : KwArgs)
  | opPlotAxvline (x ymin ymax : Int) (win : Int) (size : Option (Int × Int))
      (delayDraw : Bool) (kws : KwArgs)
  | opHist (x : List Int) (bins : Int) (win : Int) (new : Bool)
      (size : Option (Int × Int)) (forceDraw : Bool) (title : Option String) (kws : KwArgs)
  | opImshow (map : List (List Int)) (x y : Option (List Int)) (colormap : Option String)
      (win : Int) (wintitle : Option String) (size : Option (Int × Int)) (kws : KwArgs)
  | opContour (map : List (List Int)) (x y : Option (List Int)) (colormap : Option String)
      (win : Int) (wintitle : Option String) (size : Option (Int × Int)) (kws : KwArgs)
  | opPlotCursor (w : Nat) (x y : Int) (t : Nat)
  | opImageCursor (w : Nat) (x y ix iy : Int) (t : Nat)

/-- The state effect of one module operation (returned values dropped). -/
def applyOp (op : Op) (s : IState) : IState :=
  match op with
  | .opGetWxapp r c => (get_wxapp r c s).2
  | .opSetTheme t => (set_theme t s).2
  | .opGetPlotWindow w sz wt th => (get_plot_window w sz wt th s).2
  | .opGetImageWindow w sz wt => (get_image_window w sz wt s).2
  | .opPlot x y w n sz wt th kws => (plot x y w n sz wt th kws s).2
  | .opNewplot x y w wt kws => (newplot x y w wt kws s).2
  | .opUpdateTrace x y tr w kws => update_trace x y tr w kws s
  | .opPlotSetlimits a b c d w => plot_setlimits a b c d w s
  | .opPlotText txt x y w rot ha va side sz kws => plot_text txt x y w rot ha va side sz kws s
  | .opPlotArrow x1 y1 x2 y2 w side shape color wd hw hl sz kws =>
      plot_arrow x1 y1 x2 y2 w side shape color wd hw hl sz kws s
  | .opPlotMarker x y mk sz color label w kws => plot_marker x y mk sz color label w kws s
  | .opPlotAxhline y a b w sz dd kws => plot_axhline y a b w sz dd kws s
  | .opPlotAxvline x a b w sz dd kws => plot_axvline x a b w sz dd kws s
  | .opHist x bins w n sz fd title kws => hist x bins w n sz fd title kws s
  | .opImshow m x y cm w wt sz kws => (imshow m x y cm w wt sz kws s).2
  | .opContour m x y cm w wt sz kws => (contour m x y cm w wt sz kws s).2
  | .opPlotCursor w x y t => plot_cursor w x y t s
  | .opImageCursor w x y ix iy t => image_cursor w x y ix iy t s

/-- Iterated calls of `get_wxapp`, collecting the returned app objects. -/
def run_get_wxapp : Nat → IState → List Nat × IState
  | 0, s => ([], s)
  | Nat.succ n, s =>
    let r := get_wxapp false true s
    let rest := run_get_wxapp n r.2
    (r.1 :: rest.1, rest.2)

/-- Is a logged call a `canvas.draw()`? -/
def isCanvasDraw : DrawCall → Bool
  | DrawCall.canvasDraw _ => true
  | _ => false

/-- Number of `canvas.draw()` calls in a log. -/
def countDraws (l : List DrawCall) : Nat := (l.filter isCanvasDraw).length

/-- Well-formedness of the plot registry: each entry's stored handle is its
key (as the factories maintain). -/
def plotRegWF (s : IState) : Prop := ∀ p ∈ s.PLOT_DISPLAYS, p.2.window = p.1

/-- All keys of a registry lie in `[1, MAX_WINDOWS]`. -/
def regKeysOK {α : Type} (reg : List (Nat × α)) : Prop :=
  ∀ p ∈ reg, 1 ≤ p.1 ∧ p.1 ≤ MAX_WINDOWS

/-! ### Basic lemmas about the registry and keyword-dictionary operations -/

theorem regFind_mem {α : Type} (reg : List (Nat × α)) (w : Nat) (v : α)
    (h : regFind reg w = some v) : (w, v) ∈ reg := by
  induction reg with
  | nil => simp [regFind] at h
  | cons p rest ih =>
    obtain ⟨k, x⟩ := p
    by_cases hk : k = w
    · subst hk
      simp [regFind] at h
      subst h
      exact List.mem_cons_self _ _
    · simp [regFind, hk] at h
      exact List.mem_cons_of_mem _ (ih h)

theorem regFind_erase_self {α : Type} (reg : List (Nat × α)) (w : Nat) :
    regFind (regErase reg w) w = none := by
  induction reg with
  | nil => rfl
  | cons p rest ih =>
    obtain ⟨k, x⟩ := p
    by_cases hk : k = w
    · simpa [regErase, hk] using ih
    · simpa [regErase, regFind, hk] using ih

theorem regFind_update_isSome {α : Type} (reg : List (Nat × α)) (w : Nat)
    (f : α → α) (v : Nat) :
    (regFind (regUpdate reg w f) v).isSome = (regFind reg v).isSome := by
  induction reg with
  | nil => rfl
  | cons p rest ih =>
    obtain ⟨k, x⟩ := p
    by_cases hkw : k = w
    · subst hkw
      by_cases hkv : k = v
      · subst hkv
        simp [regUpdate, regFind]
      · simp [regUpdate, regFind, hkv, ih]
    · by_cases hkv : k = v
      · subst hkv
        simp [regUpdate, regFind, hkw]
      · simp [regUpdate, regFind, hkw, hkv, ih]

theorem clamp_win_ge_one (win : Int) : 1 ≤ clamp_win win := le_max_left 1 _

theorem clamp_win_le_max (win : Int) : clamp_win win ≤ MAX_WINDOWS := by
  have h1 : min MAX_WINDOWS win.natAbs ≤ MAX_WINDOWS := Nat.min_le_left _ _
  have h2 : (1 : Nat) ≤ MAX_WINDOWS := by norm_num [MAX_WINDOWS]
  exact max_le h2 h1

theorem countDraws_nil : countDraws [] = 0 := rfl

theorem countDraws_cons_of_not (c : DrawCall) (l : List DrawCall)
    (h : isCanvasDraw c = false) : countDraws (c :: l) = countDraws l := by
  simp [countDraws, List.filter_cons, h]

theorem countDraws_cons_draw (o : Nat) (l : List DrawCall) :
    countDraws (DrawCall.canvasDraw o :: l) = countDraws l + 1 := by
  simp [countDraws, List.filter_cons, isCanvasDraw]

theorem kwGet_eq_none_of_not_contains (kws : KwArgs) (k : String)
    (h : kwContains kws k = false) : kwGet kws k = none := by
  induction kws with
  | nil => rfl
  | cons p rest ih =>
    simp [kwContains] at h
    simp [kwGet, h.1, ih h.2]

theorem kwErase_of_not_contains (kws : KwArgs) (k : String)
    (h : kwContains kws k = false) : kwErase kws k = kws := by
  induction kws with
  | nil => rfl
  | cons p rest ih =>
    simp [kwContains] at h
    simp [kwErase, h.1, ih h.2]

theorem kwGet_append (l1 l2 : KwArgs) (k : String) :
    kwGet (l1 ++ l2) k =
      match kwGet l1 k with
      | some v => some v
      | none => kwGet l2 k := by
  induction l1 with
  | nil => simp [kwGet]
  | cons p rest ih =>
    by_cases h : p.1 == k <;> simp [kwGet, h, ih]

theorem kwErase_append (l1 l2 : KwArgs) (k : String) :
    kwErase (l1 ++ l2) k = kwErase l1 k ++ kwErase l2 k := by
  induction l1 with
  | nil => simp [kwErase]
  | cons p rest ih =>
    by_cases h : p.1 == k <;> simp [kwErase, h, ih]

theorem kwSet_of_not_contains (kws : KwArgs) (k : String) (v : KwVal)
    (h : kwContains kws k = false) : kwSet kws k v = kws ++ [(k, v)] := by
  simp [kwSet, h]

theorem mem_kwOverwrite_of_mem (kws : KwArgs) (k : String) (v : KwVal)
    (p : String × KwVal) (hp : p ∈ kws) (hk : p.1 ≠ k) :
    p ∈ kwOverwrite kws k v := by
  induction kws with
  | nil => simp at hp
  | cons q rest ih =>
    rcases List.mem_cons.mp hp with h1 | h1
    · subst h1
      have hq : ¬(p.1 == k) = true := by simpa using hk
      simp [kwOverwrite, hq]
    · by_cases hq : q.1 == k <;> simp [kwOverwrite, hq] <;>
        exact Or.inr (ih h1)

theorem self_mem_kwOverwrite (kws : KwArgs) (k : String) (v : KwVal)
    (hc : kwContains kws k = true) : (k, v) ∈ kwOverwrite kws k v := by
  induction kws with
  | nil => simp [kwContains] at hc
  | cons q rest ih =>
    by_cases hq : q.1 == k
    · simp [kwOverwrite, hq]
    · simp only [kwContains, hq, Bool.false_or] at hc
      simp only [kwOverwrite, hq, Bool.false_eq_true, if_neg, not_false_iff,
        List.mem_cons]
      exact Or.inr (ih hc)

theorem mem_kwSet_of_mem (kws : KwArgs) (k : String) (v : KwVal)
    (p : String × KwVal) (hp : p ∈ kws) (hk : p.1 ≠ k) : p ∈ kwSet kws k v := by
  by_cases hc : kwContains kws k = true
  · rw [kwSet, if_pos hc]
    exact mem_kwOverwrite_of_mem kws k v p hp hk
  · rw [kwSet, if_neg hc]
    exact List.mem_append_left _ hp

theorem self_mem_kwSet (kws : KwArgs) (k : String) (v : KwVal) :
    (k, v) ∈ kwSet kws k v := by
  by_cases hc : kwContains kws k = true
  · rw [kwSet, if_pos hc]
    exact self_mem_kwOverwrite kws k v hc
  · rw [kwSet, if_neg hc]
    exact List.mem_append_right _ (by simp)

/-! ### Effect lemmas for `get_wxapp` and the window constructors -/

theorem get_wxapp_effects (r c : Bool) (s : IState) :
    ((get_wxapp r c s).2).PLOT_DISPLAYS = s.PLOT_DISPLAYS ∧
    ((get_wxapp r c s).2).IMG_DISPLAYS = s.IMG_DISPLAYS ∧
    ((get_wxapp r c s).2).DEFAULT_THEME = s.DEFAULT_THEME ∧
    ((get_wxapp r c s).2).calls = s.calls ∧
    s.nextOid ≤ ((get_wxapp r c s).2).nextOid ∧
    ((get_wxapp r c s).2).appsMade ≤ s.appsMade + 1 ∧
    ((get_wxapp r c s).2).wxapp = some (get_wxapp r c s).1 := by
  rcases h : s.wxapp with _ | a
  · rcases h2 : s.envApp with _ | a <;> simp [get_wxapp, h, h2]
  · simp [get_wxapp, h]

theorem get_wxapp_of_some (r c : Bool) (s : IState) (a : Nat)
    (h : s.wxapp = some a) : get_wxapp r c s = (a, s) := by
  simp [get_wxapp, h]

theorem get_wxapp_of_env (r c : Bool) (s : IState) (e : Nat)
    (h1 : s.wxapp = none) (h2 : s.envApp = some e) :
    get_wxapp r c s = (e, { s with wxapp := some e }) := by
  simp [get_wxapp, h1, h2]

theorem get_wxapp_PLOT (r c : Bool) (s : IState) :
    ((get_wxapp r c s).2).PLOT_DISPLAYS = s.PLOT_DISPLAYS :=
  (get_wxapp_effects r c s).1

theorem get_wxapp_IMG (r c : Bool) (s : IState) :
    ((get_wxapp r c s).2).IMG_DISPLAYS = s.IMG_DISPLAYS :=
  (get_wxapp_effects r c s).2.1

theorem get_wxapp_calls (r c : Bool) (s : IState) :
    ((get_wxapp r c s).2).calls = s.calls :=
  (get_wxapp_effects r c s).2.2.2.1

theorem get_wxapp_nextOid_le (r c : Bool) (s : IState) :
    s.nextOid ≤ ((get_wxapp r c s).2).nextOid :=
  (get_wxapp_effects r c s).2.2.2.2.1

theorem countDraws_cons (c : DrawCall) (l : List DrawCall) :
    countDraws (c :: l) = (if isCanvasDraw c = true then 1 else 0) + countDraws l := by
  by_cases h : isCanvasDraw c = true <;> simp [countDraws, List.filter_cons, h] <;> omega

theorem plotDisplay_init_spec (w : Nat) (sz : Option (Int × Int))
    (th wt : Option String) (s : IState)
    (hfind : regFind s.PLOT_DISPLAYS w = none) :
    ((PlotDisplay.init w sz th wt s).2).PLOT_DISPLAYS
        = (w, (PlotDisplay.init w sz th wt s).1) :: s.PLOT_DISPLAYS ∧
    ((PlotDisplay.init w sz th wt s).2).IMG_DISPLAYS = s.IMG_DISPLAYS ∧
    (PlotDisplay.init w sz th wt s).1.window = w ∧
    (PlotDisplay.init w sz th wt s).1.cursor_hist = [] ∧
    s.nextOid ≤ (PlotDisplay.init w sz th wt s).1.oid ∧
    countDraws ((PlotDisplay.init w sz th wt s).2).calls = countDraws s.calls := by
  have hP := get_wxapp_PLOT false true s
  have hC := get_wxapp_calls false true s
  have hI := get_wxapp_IMG false true s
  have hN := get_wxapp_nextOid_le false true s
  unfold PlotDisplay.init
  rcases sz with _ | ⟨a, b⟩ <;>
    simp [hP, hC, hI, hN, hfind, countDraws_cons, isCanvasDraw]

theorem imageDisplay_init_spec (w : Nat) (sz : Option (Int × Int))
    (wt : Option String) (s : IState)
    (hfind : regFind s.IMG_DISPLAYS w = none) :
    ((ImageDisplay.init w sz wt s).2).IMG_DISPLAYS
        = (w, (ImageDisplay.init w sz wt s).1) :: s.IMG_DISPLAYS ∧
    ((ImageDisplay.init w sz wt s).2).PLOT_DISPLAYS = s.PLOT_DISPLAYS ∧
    (ImageDisplay.init w sz wt s).1.window = w ∧
    (ImageDisplay.init w sz wt s).1.cursor_hist = [] ∧
    s.nextOid ≤ (ImageDisplay.init w sz wt s).1.oid ∧
    countDraws ((ImageDisplay.init w sz wt s).2).calls = countDraws s.calls := by
  have hP := get_wxapp_PLOT false true s
  have hC := get_wxapp_calls false true s
  have hI := get_wxapp_IMG false true s
  have hN := get_wxapp_nextOid_le false true s
  unfold ImageDisplay.init
  rcases sz with _ | ⟨a, b⟩ <;>
    simp [hP, hC, hI, hN, hfind, countDraws_cons, isCanvasDraw]

/-! ### Effect lemmas for the two window factories -/

theorem get_plot_window_found (win : Int) (sz : Option (Int × Int))
    (wt th : Option String) (s : IState) (d : PlotDisplay)
    (h : regFind s.PLOT_DISPLAYS (clamp_win win) = some d) :
    get_plot_window win sz wt th s = (d, s) := by
  unfold get_plot_window
  simp [h]

theorem get_plot_window_cases (win : Int) (sz : Option (Int × Int))
    (wt th : Option String) (s : IState) :
    (∃ d, regFind s.PLOT_DISPLAYS (clamp_win win) = some d ∧
          get_plot_window win sz wt th s = (d, s)) ∨
    (regFind s.PLOT_DISPLAYS (clamp_win win) = none ∧
     get_plot_window win sz wt th s = PlotDisplay.init (clamp_win win) sz th wt s) := by
  rcases h : regFind s.PLOT_DISPLAYS (clamp_win win) with _ | d
  · right
    refine ⟨rfl, ?_⟩
    unfold get_plot_window
    simp [h]
  · left
    exact ⟨d, rfl, get_plot_window_found win sz wt th s d h⟩

theorem get_image_window_found (win : Int) (sz : Option (Int × Int))
    (wt : Option String) (s : IState) (d : ImageDisplay)
    (h : regFind s.IMG_DISPLAYS (clamp_win win) = some d) :
    get_image_window win sz wt s = (Except.error PyErr.nameError, s) := by
  unfold get_image_window
  simp [h]

theorem get_image_window_cases (win : Int) (sz : Option (Int × Int))
    (wt : Option String) (s : IState) :
    (∃ d, regFind s.IMG_DISPLAYS (clamp_win win) = some d ∧
          get_image_window win sz wt s = (Except.error PyErr.nameError, s)) ∨
    (regFind s.IMG_DISPLAYS (clamp_win win) = none ∧
     get_image_window win sz wt s
       = (Except.ok (ImageDisplay.init (clamp_win win) sz wt s).1,
          (ImageDisplay.init (clamp_win win) sz wt s).2)) := by
  rcases h : regFind s.IMG_DISPLAYS (clamp_win win) with _ | d
  · right
    refine ⟨rfl, ?_⟩
    unfold get_image_window
    simp [h]
  · left
    exact ⟨d, rfl, get_image_window_found win sz wt s d h⟩

theorem get_plot_window_registers (win : Int) (sz : Option (Int × Int))
    (wt th : Option String) (s : IState) :
    regFind (((get_plot_window win sz wt th s).2).PLOT_DISPLAYS) (clamp_win win)
      = some (get_plot_window win sz wt th s).1 := by
  rcases get_plot_window_cases win sz wt th s with ⟨d, h, heq⟩ | ⟨h, heq⟩
  · rw [heq]
    exact h
  · rw [heq]
    rw [(plotDisplay_init_spec (clamp_win win) sz th wt s h).1]
    simp [regFind]

theorem get_plot_window_PLOT_super (win : Int) (sz : Option (Int × Int))
    (wt th : Option String) (s : IState) :
    ((get_plot_window win sz wt th s).2).PLOT_DISPLAYS = s.PLOT_DISPLAYS ∨
    ((get_plot_window win sz wt th s).2).PLOT_DISPLAYS
      = (clamp_win win, (get_plot_window win sz wt th s).1) :: s.PLOT_DISPLAYS := by
  rcases get_plot_window_cases win sz wt th s with ⟨d, h, heq⟩ | ⟨h, heq⟩
  · left
    rw [heq]
  · right
    rw [heq]
    exact (plotDisplay_init_spec (clamp_win win) sz th wt s h).1

theorem get_plot_window_IMG (win : Int) (sz : Option (Int × Int))
    (wt th : Option String) (s : IState) :
    ((get_plot_window win sz wt th s).2).IMG_DISPLAYS = s.IMG_DISPLAYS := by
  rcases get_plot_window_cases win sz wt th s with ⟨d, h, heq⟩ | ⟨h, heq⟩
  · rw [heq]
  · rw [heq]
    exact (plotDisplay_init_spec (clamp_win win) sz th wt s h).2.1

theorem get_plot_window_countDraws (win : Int) (sz : Option (Int × Int))
    (wt th : Option String) (s : IState) :
    countDraws ((get_plot_window win sz wt th s).2).calls = countDraws s.calls := by
  rcases get_plot_window_cases win sz wt th s with ⟨d, h, heq⟩ | ⟨h, heq⟩
  · rw [heq]
  · rw [heq]
    exact (plotDisplay_init_spec (clamp_win win) sz th wt s h).2.2.2.2.2

theorem get_plot_window_mono (win : Int) (sz : Option (Int × Int))
    (wt th : Option String) (s : IState) (v : Nat)
    (hv : (regFind s.PLOT_DISPLAYS v).isSome = true) :
    (regFind (((get_plot_window win sz wt th s).2).PLOT_DISPLAYS) v).isSome = true := by
  rcases get_plot_window_PLOT_super win sz wt th s with h | h <;> rw [h]
  · exact hv
  · by_cases hc : clamp_win win = v <;> simp [regFind, hc, hv]

theorem get_plot_window_keysOK (win : Int) (sz : Option (Int × Int))
    (wt th : Option String) (s : IState)
    (hk : regKeysOK s.PLOT_DISPLAYS) :
    regKeysOK (((get_plot_window win sz wt th s).2).PLOT_DISPLAYS) := by
  rcases get_plot_window_PLOT_super win sz wt th s with h | h <;> rw [h]
  · exact hk
  · intro p hp
    rcases List.mem_cons.mp hp with h1 | h1
    · subst h1
      exact ⟨clamp_win_ge_one win, clamp_win_le_max win⟩
    · exact hk p h1

theorem get_plot_window_window (win : Int) (sz : Option (Int × Int))
    (wt th : Option String) (s : IState) (hwf : plotRegWF s) :
    ((get_plot_window win sz wt th s).1).window = clamp_win win := by
  rcases get_plot_window_cases win sz wt th s with ⟨d, h, heq⟩ | ⟨h, heq⟩
  · rw [heq]
    exact hwf _ (regFind_mem _ _ _ h)
  · rw [heq]
    exact (plotDisplay_init_spec (clamp_win win) sz th wt s h).2.2.1

theorem get_image_window_IMG_super (win : Int) (sz : Option (Int × Int))
    (wt : Option String) (s : IState) :
    ((get_image_window win sz wt s).2).IMG_DISPLAYS = s.IMG_DISPLAYS ∨
    (∃ d, (get_image_window win sz wt s).1 = Except.ok d ∧
      ((get_image_window win sz wt s).2).IMG_DISPLAYS
        = (clamp_win win, d) :: s.IMG_DISPLAYS) := by
  rcases get_image_window_cases win sz wt s with ⟨d, h, heq⟩ | ⟨h, heq⟩
  · left
    rw [heq]
  · right
    refine ⟨(ImageDisplay.init (clamp_win win) sz wt s).1, by rw [heq], ?_⟩
    rw [heq]
    exact (imageDisplay_init_spec (clamp_win win) sz wt s h).1

theorem get_image_window_PLOT (win : Int) (sz : Option (Int × Int))
    (wt : Option String) (s : IState) :
    ((get_image_window win sz wt s).2).PLOT_DISPLAYS = s.PLOT_DISPLAYS := by
  rcases get_image_window_cases win sz wt s with ⟨d, h, heq⟩ | ⟨h, heq⟩
  · rw [heq]
  · rw [heq]
    exact (imageDisplay_init_spec (clamp_win win) sz wt s h).2.1

theorem get_image_window_mono (win : Int) (sz : Option (Int × Int))
    (wt : Option String) (s : IState) (v : Nat)
    (hv : (regFind s.IMG_DISPLAYS v).isSome = true) :
    (regFind (((get_image_window win sz wt s).2).IMG_DISPLAYS) v).isSome = true := by
  rcases get_image_window_IMG_super win sz wt s with h | ⟨d, _, h⟩ <;> rw [h]
  · exact hv
  · by_cases hc : clamp_win win = v <;> simp [regFind, hc, hv]

theorem get_image_window_keysOK (win : Int) (sz : Option (Int × Int))
    (wt : Option String) (s : IState)
    (hk : regKeysOK s.IMG_DISPLAYS) :
    regKeysOK (((get_image_window win sz wt s).2).IMG_DISPLAYS) := by
  rcases get_image_window_IMG_super win sz wt s with h | ⟨d, _, h⟩ <;> rw [h]
  · exact hk
  · intro p hp
    rcases List.mem_cons.mp hp with h1 | h1
    · subst h1
      exact ⟨clamp_win_ge_one win, clamp_win_le_max win⟩
    · exact hk p h1

theorem get_image_window_window (win : Int) (sz : Option (Int × Int))
    (wt : Option String) (s : IState) (d : ImageDisplay)
    (h : (get_image_window win sz wt s).1 = Except.ok d) :
    d.window = clamp_win win := by
  rcases get_image_window_cases win sz wt s with ⟨e, hf, heq⟩ | ⟨hf, heq⟩
  · rw [heq] at h
    simp at h
  · rw [heq] at h
    simp at h
    rw [← h]
    exact (imageDisplay_init_spec (clamp_win win) sz wt s hf).2.2.1

/-! ### Effect lemmas for the forwarders' state handling -/

theorem plot_effects (x y : List Int) (win : Int) (new : Bool)
    (sz : Option (Int × Int)) (wt th : Option String) (kws : KwArgs)
    (s : IState) :
    (plot x y win new sz wt th kws s).1 = some (get_plot_window win sz wt th s).1 ∧
    (plot x y win new sz wt th kws s).2.PLOT_DISPLAYS
      = ((get_plot_window win sz wt th s).2).PLOT_DISPLAYS ∧
    (plot x y win new sz wt th kws s).2.IMG_DISPLAYS
      = ((get_plot_window win sz wt th s).2).IMG_DISPLAYS ∧
    (plot x y win new sz wt th kws s).2.nextOid
      = ((get_plot_window win sz wt th s).2).nextOid := by
  unfold plot
  cases new <;> simp

theorem plotDisplay_onCursor_length (d : PlotDisplay) (x y : Int) (t : Nat)
    (h : d.cursor_hist.length ≤ MAX_CURSHIST) :
    (d.onCursor x y t).cursor_hist.length ≤ MAX_CURSHIST := by
  unfold PlotDisplay.onCursor
  by_cases hl : MAX_CURSHIST < d.cursor_hist.length + 1 <;>
    simp [hl, List.length_take] <;> omega

theorem plotDisplay_onCursor_head (d : PlotDisplay) (x y : Int) (t : Nat) :
    (d.onCursor x y t).cursor_hist.head? = some (x, y, t) := by
  unfold PlotDisplay.onCursor
  by_cases hl : MAX_CURSHIST < d.cursor_hist.length + 1
  · simp [hl, show MAX_CURSHIST = 99 + 1 from rfl, List.take_succ_cons]
    split <;> rfl
  · simp [hl]

theorem imageDisplay_onCursor_length (d : ImageDisplay) (x y ix iy : Int)
    (t : Nat) (h : d.cursor_hist.length ≤ MAX_CURSHIST) :
    (d.onCursor x y ix iy t).cursor_hist.length ≤ MAX_CURSHIST := by
  unfold ImageDisplay.onCursor
  by_cases hl : MAX_CURSHIST < d.cursor_hist.length + 1 <;>
    simp [hl, List.length_take] <;> omega

theorem imageDisplay_onCursor_head (d : ImageDisplay) (x y ix iy : Int) (t : Nat) :
    (d.onCursor x y ix iy t).cursor_hist.head? = some (x, y, ix, iy, t) := by
  unfold ImageDisplay.onCursor
  by_cases hl : MAX_CURSHIST < d.cursor_hist.length + 1
  · simp [hl, show MAX_CURSHIST = 99 + 1 from rfl, List.take_succ_cons]
    split <;> rfl
  · simp [hl]

theorem plotDisplay_onCursor_foldl_length (evs : List (Int × Int × Nat))
    (d : PlotDisplay) (h : d.cursor_hist.length ≤ MAX_CURSHIST) :
    ((evs.foldl (fun a ev => a.onCursor ev.1 ev.2.1 ev.2.2) d).cursor_hist.length
      ≤ MAX_CURSHIST) := by
  induction evs generalizing d with
  | nil => exact h
  | cons ev rest ih =>
    exact ih _ (plotDisplay_onCursor_length d ev.1 ev.2.1 ev.2.2 h)

theorem imageDisplay_onCursor_foldl_length (evs : List (Int × Int × Int × Int × Nat))
    (d : ImageDisplay) (h : d.cursor_hist.length ≤ MAX_CURSHIST) :
    ((evs.foldl (fun a ev => a.onCursor ev.1 ev.2.1 ev.2.2.1 ev.2.2.2.1 ev.2.2.2.2) d).cursor_hist.length
      ≤ MAX_CURSHIST) := by
  induction evs generalizing d with
  | nil => exact h
  | cons ev rest ih =>
    exact ih _ (imageDisplay_onCursor_length d ev.1 ev.2.1 ev.2.2.1 ev.2.2.2.1 ev.2.2.2.2 h)

theorem plotDisplay_onExit_find (d : PlotDisplay) (s : IState) :
    regFind ((PlotDisplay.onExit d s).PLOT_DISPLAYS) d.window = none := by
  unfold PlotDisplay.onExit
  by_cases hf : (regFind s.PLOT_DISPLAYS d.window).isSome = true
  · simp [hf, regFind_erase_self]
  · have hn : regFind s.PLOT_DISPLAYS d.window = none := by
      cases h : regFind s.PLOT_DISPLAYS d.window
      · rfl
      · simp [h] at hf
    simp [hf, hn]

theorem imageDisplay_onExit_find (d : ImageDisplay) (s : IState) :
    regFind ((ImageDisplay.onExit d s).IMG_DISPLAYS) d.window = none := by
  unfold ImageDisplay.onExit
  by_cases hf : (regFind s.IMG_DISPLAYS d.window).isSome = true
  · simp [hf, regFind_erase_self]
  · have hn : regFind s.IMG_DISPLAYS d.window = none := by
      cases h : regFind s.IMG_DISPLAYS d.window
      · rfl
      · simp [h] at hf
    simp [hf, hn]

theorem plotDisplay_onExit_nextOid (d : PlotDisplay) (s : IState) :
    (PlotDisplay.onExit d s).nextOid = s.nextOid := by
  unfold PlotDisplay.onExit
  by_cases hf : (regFind s.PLOT_DISPLAYS d.window).isSome = true <;> simp [hf]

theorem clamp_win_of_range (w : Nat) (h1 : 1 ≤ w) (h2 : w ≤ MAX_WINDOWS) :
    clamp_win (Int.ofNat w) = w := by
  have hn : (Int.ofNat w).natAbs = w := Int.natAbs_ofNat w
  simp only [clamp_win, hn, MAX_WINDOWS] at *
  omega

theorem imshow_effects (m : List (List Int)) (x y : Option (List Int))
    (cm : Option String) (w : Int) (wt : Option String)
    (sz : Option (Int × Int)) (kws : KwArgs) (s : IState) :
    (imshow m x y cm w wt sz kws s).2.PLOT_DISPLAYS
      = ((get_image_window w sz wt s).2).PLOT_DISPLAYS ∧
    (imshow m x y cm w wt sz kws s).2.IMG_DISPLAYS
      = ((get_image_window w sz wt s).2).IMG_DISPLAYS := by
  unfold imshow
  rcases h : (get_image_window w sz wt s).1 with e | img <;> simp [h]

theorem contour_effects (m : List (List Int)) (x y : Option (List Int))
    (cm : Option String) (w : Int) (wt : Option String)
    (sz : Option (Int × Int)) (kws : KwArgs) (s : IState) :
    (contour m x y cm w wt sz kws s).2.PLOT_DISPLAYS
      = ((get_image_window w sz wt s).2).PLOT_DISPLAYS ∧
    (contour m x y cm w wt sz kws s).2.IMG_DISPLAYS
      = ((get_image_window w sz wt s).2).IMG_DISPLAYS := by
  unfold contour
  rcases hr : (imshow m x y cm w wt sz (kwSet kws "style" (KwVal.str "contour")) s).1
    with e | u <;> simp only [hr] <;>
    exact imshow_effects m x y cm w wt sz (kwSet kws "style" (KwVal.str "contour")) s

theorem set_theme_regs (t : String) (s : IState) :
    (set_theme t s).2.PLOT_DISPLAYS = s.PLOT_DISPLAYS ∧
    (set_theme t s).2.IMG_DISPLAYS = s.IMG_DISPLAYS := by
  unfold set_theme
  by_cases h : pyLower t ∈ Themes <;> simp [h]

theorem mono_of_gpw (s s' : IState) (win : Int) (sz : Option (Int × Int))
    (wt th : Option String) (v : Nat)
    (hP : s'.PLOT_DISPLAYS = ((get_plot_window win sz wt th s).2).PLOT_DISPLAYS)
    (hI : s'.IMG_DISPLAYS = ((get_plot_window win sz wt th s).2).IMG_DISPLAYS) :
    ((regFind s.PLOT_DISPLAYS v).isSome = true →
      (regFind s'.PLOT_DISPLAYS v).isSome = true) ∧
    ((regFind s.IMG_DISPLAYS v).isSome = true →
      (regFind s'.IMG_DISPLAYS v).isSome = true) := by
  constructor
  · intro hv
    rw [hP]
    exact get_plot_window_mono win sz wt th s v hv
  · intro hv
    rw [hI, get_plot_window_IMG]
    exact hv

theorem mono_of_giw (s s' : IState) (win : Int) (sz : Option (Int × Int))
    (wt : Option String) (v : Nat)
    (hP : s'.PLOT_DISPLAYS = ((get_image_window win sz wt s).2).PLOT_DISPLAYS)
    (hI : s'.IMG_DISPLAYS = ((get_image_window win sz wt s).2).IMG_DISPLAYS) :
    ((regFind s.PLOT_DISPLAYS v).isSome = true →
      (regFind s'.PLOT_DISPLAYS v).isSome = true) ∧
    ((regFind s.IMG_DISPLAYS v).isSome = true →
      (regFind s'.IMG_DISPLAYS v).isSome = true) := by
  constructor
  · intro hv
    rw [hP, get_image_window_PLOT]
    exact hv
  · intro hv
    rw [hI]
    exact get_image_window_mono win sz wt s v hv

theorem applyOp_mono (op : Op) (s : IState) (v : Nat) :
    ((regFind s.PLOT_DISPLAYS v).isSome = true →
      (regFind ((applyOp op s).PLOT_DISPLAYS) v).isSome = true) ∧
    ((regFind s.IMG_DISPLAYS v).isSome = true →
      (regFind ((applyOp op s).IMG_DISPLAYS) v).isSome = true) := by
  cases op with
  | opGetWxapp r c =>
    constructor
    · intro hv
      rw [show (applyOp (Op.opGetWxapp r c) s).PLOT_DISPLAYS = s.PLOT_DISPLAYS
          from get_wxapp_PLOT r c s]
      exact hv
    · intro hv
      rw [show (applyOp (Op.opGetWxapp r c) s).IMG_DISPLAYS = s.IMG_DISPLAYS
          from get_wxapp_IMG r c s]
      exact hv
  | opSetTheme t =>
    constructor
    · intro hv
      rw [show (applyOp (Op.opSetTheme t) s).PLOT_DISPLAYS = s.PLOT_DISPLAYS
          from (set_theme_regs t s).1]
      exact hv
    · intro hv
      rw [show (applyOp (Op.opSetTheme t) s).IMG_DISPLAYS = s.IMG_DISPLAYS
          from (set_theme_regs t s).2]
      exact hv
  | opGetPlotWindow w sz wt th => exact mono_of_gpw s _ w sz wt th v rfl rfl
  | opGetImageWindow w sz wt => exact mono_of_giw s _ w sz wt v rfl rfl
  | opPlot x y w n sz wt th kws =>
    cases n <;> exact mono_of_gpw s _ w sz wt th v rfl rfl
  | opNewplot x y w wt kws =>
    have h := plot_effects x y w
      (kwBool (kwGet (kwSet kws "new" (KwVal.bool true)) "new"))
      (kwSize (kwGet (kwSet kws "new" (KwVal.bool true)) "size")) wt
      (kwStr (kwGet (kwSet kws "new" (KwVal.bool true)) "theme"))
      (kwErase (kwErase (kwErase (kwSet kws "new" (KwVal.bool true)) "new") "size") "theme") s
    exact mono_of_gpw s _ w
      (kwSize (kwGet (kwSet kws "new" (KwVal.bool true)) "size")) wt
      (kwStr (kwGet (kwSet kws "new" (KwVal.bool true)) "theme")) v h.2.1 h.2.2.1
  | opUpdateTrace x y tr w kws => exact mono_of_gpw s _ w none none none v rfl rfl
  | opPlotSetlimits a b c d w => exact mono_of_gpw s _ w none none none v rfl rfl
  | opPlotText txt x y w rot ha va side sz kws =>
    exact mono_of_gpw s _ w sz none none v rfl rfl
  | opPlotArrow x1 y1 x2 y2 w side shape color wd hw hl sz kws =>
    exact mono_of_gpw s _ w sz none none v rfl rfl
  | opPlotMarker x y mk sz color label w kws =>
    exact mono_of_gpw s _ w none none none v rfl rfl
  | opPlotAxhline y a b w sz dd kws =>
    cases dd <;> exact mono_of_gpw s _ w sz none none v rfl rfl
  | opPlotAxvline x a b w sz dd kws =>
    cases dd <;> exact mono_of_gpw s _ w sz none none v rfl rfl
  | opHist x bins w n sz fd title kws =>
    cases n <;> rcases title with _ | t <;>
      exact mono_of_gpw s _ w sz none none v rfl rfl
  | opImshow m x y cm w wt sz kws =>
    have h := imshow_effects m x y cm w wt sz kws s
    exact mono_of_giw s _ w sz wt v h.1 h.2
  | opContour m x y cm w wt sz kws =>
    have h := contour_effects m x y cm w wt sz kws s
    exact mono_of_giw s _ w sz wt v h.1 h.2
  | opPlotCursor w x y t =>
    constructor
    · intro hv
      rw [show (applyOp (Op.opPlotCursor w x y t) s).PLOT_DISPLAYS
          = regUpdate s.PLOT_DISPLAYS w (fun d => d.onCursor x y t) from rfl]
      rw [regFind_update_isSome]
      exact hv
    · intro hv
      exact hv
  | opImageCursor w x y ix iy t =>
    constructor
    · intro hv
      exact hv
    · intro hv
      rw [show (applyOp (Op.opImageCursor w x y ix iy t) s).IMG_DISPLAYS
          = regUpdate s.IMG_DISPLAYS w (fun d => d.onCursor x y ix iy t) from rfl]
      rw [regFind_update_isSome]
      exact hv

/-! ### The claims -/

/-- Claim C1: for every integer handle `h`, both `get_plot_window(win=h)`
and `get_image_window(win=h)` resolve the handle to
`clamp(abs(h), 1, 100) = max 1 (min 100 |h|)` — the returned (or newly
constructed) window carries exactly that handle — the clamped value always
lies in `[1, 100]`, and neither factory ever creates a registry key
outside `[1, 100]`. -/
theorem C1_factories_clamp_handle (h : Int) (sz : Option (Int × Int))
    (wt th : Option String) (s : IState) :
    (plotRegWF s →
      ((get_plot_window h sz wt th s).1).window = max 1 (min 100 h.natAbs)) ∧
    (∀ d, (get_image_window h sz wt s).1 = Except.ok d →
      d.window = max 1 (min 100 h.natAbs)) ∧
    (1 ≤ max 1 (min 100 h.natAbs) ∧ max 1 (min 100 h.natAbs) ≤ 100) ∧
    (regKeysOK s.PLOT_DISPLAYS →
      regKeysOK (((get_plot_window h sz wt th s).2).PLOT_DISPLAYS)) ∧
    (regKeysOK s.IMG_DISPLAYS →
      regKeysOK (((get_image_window h sz wt s).2).IMG_DISPLAYS)) := by
  have hcw : clamp_win h = max 1 (min 100 h.natAbs) := by
    simp [clamp_win, MAX_WINDOWS]
  refine ⟨?_, ?_, ?_, ?_, ?_⟩
  · intro hwf
    rw [← hcw]
    exact get_plot_window_window h sz wt th s hwf
  · intro d hd
    rw [← hcw]
    exact get_image_window_window h sz wt s d hd
  · rw [← hcw]
    refine ⟨clamp_win_ge_one h, ?_⟩
    have := clamp_win_le_max h
    simpa [MAX_WINDOWS] using this
  · exact get_plot_window_keysOK h sz wt th s
  · exact get_image_window_keysOK h sz wt s

/-- Witness for C1 at the out-of-range handle `h = -250` on the initial
state: the resolved handle is `max 1 (min 100 250) = 100`. -/
theorem C1_witness :
    ((get_plot_window (-250) none none none initState).1).window
      = max 1 (min 100 (Int.natAbs (-250))) ∧
    (1 ≤ max 1 (min 100 (Int.natAbs (-250)))
      ∧ max 1 (min 100 (Int.natAbs (-250))) ≤ 100) ∧
    regKeysOK (((get_plot_window (-250) none none none initState).2).PLOT_DISPLAYS) := by
  have h := C1_factories_clamp_handle (-250) none none none initState
  refine ⟨h.1 ?_, h.2.2.1, h.2.2.2.1 ?_⟩
  · intro p hp
    simp [initState] at hp
  · intro p hp
    simp [initState] at hp

/-- Claim C2 (code bug): constructing an image window for handle 1 and
then calling `get_image_window(win=1)` again does not return the
registered entry: line 220 of the source reads the undefined name
`IMG_DISPLAY` instead of `IMG_DISPLAYS`, so the second call raises a
`NameError` (while its docstring promises to "return the existing
ImageFrame"). -/
theorem C2_second_image_lookup_raises :
    (get_image_window 1 none none initState).1
      = Except.ok { oid := 1, window := 1, wintitle := "Image Window 1",
                    cursor_hist := [] } ∧
    (get_image_window 1 none none
        ((get_image_window 1 none none initState).2)).1
      = Except.error PyErr.nameError := by
  constructor <;> rfl

/-- Claim C3: calling `plot` twice with the same handle and `new=False`
returns the identity-same window object on the second call; the second
call neither registers a new entry (the plot registry is unchanged) nor
constructs a new object (the allocation counter is unchanged). -/
theorem C3_plot_second_call_reuses (s : IState) (x y x2 y2 : List Int)
    (win : Int) (sz sz2 : Option (Int × Int)) (wt wt2 th th2 : Option String)
    (kws kws2 : KwArgs) :
    (plot x2 y2 win false sz2 wt2 th2 kws2 (plot x y win false sz wt th kws s).2).1
      = (plot x y win false sz wt th kws s).1 ∧
    (plot x2 y2 win false sz2 wt2 th2 kws2 (plot x y win false sz wt th kws s).2).2.PLOT_DISPLAYS
      = (plot x y win false sz wt th kws s).2.PLOT_DISPLAYS ∧
    (plot x2 y2 win false sz2 wt2 th2 kws2 (plot x y win false sz wt th kws s).2).2.nextOid
      = (plot x y win false sz wt th kws s).2.nextOid := by
  have h1 := plot_effects x y win false sz wt th kws s
  have hreg : regFind ((plot x y win false sz wt th kws s).2).PLOT_DISPLAYS (clamp_win win)
      = some (get_plot_window win sz wt th s).1 := by
    rw [h1.2.1]
    exact get_plot_window_registers win sz wt th s
  have hfound := get_plot_window_found win sz2 wt2 th2
    (plot x y win false sz wt th kws s).2 _ hreg
  have h2 := plot_effects x2 y2 win false sz2 wt2 th2 kws2
    (plot x y win false sz wt th kws s).2
  refine ⟨?_, ?_, ?_⟩
  · rw [h2.1, hfound, h1.1]
  · rw [h2.2.1, hfound]
  · rw [h2.2.2.2, hfound]

/-- Claim C4: for every plot or image window whose cursor history respects
the bound (as every freshly constructed window does, starting empty), any
sequence of cursor-callback invocations keeps the history within
`MAX_CURSHIST = 100` entries, and each invocation leaves the event it
records at index 0. -/
theorem C4_cursor_history_bounded (evsP : List (Int × Int × Nat))
    (evsI : List (Int × Int × Int × Int × Nat)) (d : PlotDisplay)
    (e : ImageDisplay) (x y ix iy : Int) (t : Nat)
    (hd : d.cursor_hist.length ≤ MAX_CURSHIST)
    (he : e.cursor_hist.length ≤ MAX_CURSHIST) :
    ((evsP.foldl (fun a ev => a.onCursor ev.1 ev.2.1 ev.2.2) d).cursor_hist.length
      ≤ MAX_CURSHIST) ∧
    ((evsI.foldl (fun a ev => a.onCursor ev.1 ev.2.1 ev.2.2.1 ev.2.2.2.1 ev.2.2.2.2) e).cursor_hist.length
      ≤ MAX_CURSHIST) ∧
    ((d.onCursor x y t).cursor_hist.head? = some (x, y, t)) ∧
    ((e.onCursor x y ix iy t).cursor_hist.head? = some (x, y, ix, iy, t)) :=
  ⟨plotDisplay_onCursor_foldl_length evsP d hd,
   imageDisplay_onCursor_foldl_length evsI e he,
   plotDisplay_onCursor_head d x y t,
   imageDisplay_onCursor_head e x y ix iy t⟩

/-- Witness for C4: a freshly constructed plot window and image window
(empty history) fed one concrete event each. -/
theorem C4_witness :
    (([((1 : Int), (2 : Int), (3 : Nat))].foldl
        (fun (a : PlotDisplay) ev => a.onCursor ev.1 ev.2.1 ev.2.2)
        { oid := 0, window := 1, wintitle := "Plot Window 1",
          theme := "light", cursor_hist := [] }).cursor_hist.length
      ≤ MAX_CURSHIST) ∧
    (PlotDisplay.onCursor
        { oid := 0, window := 1, wintitle := "Plot Window 1",
          theme := "light", cursor_hist := [] }
        1 2 3).cursor_hist.head? = some (1, 2, 3) := by
  have h := C4_cursor_history_bounded [((1 : Int), (2 : Int), (3 : Nat))] []
    { oid := 0, window := 1, wintitle := "Plot Window 1",
      theme := "light", cursor_hist := [] }
    { oid := 1, window := 1, wintitle := "Image Window 1", cursor_hist := [] }
    1 2 0 0 3 (by simp) (by simp)
  exact ⟨h.1, h.2.2.1⟩

/-- Claim C5: `set_theme` succeeds exactly when the lower-cased name is a
known theme key and raises `ValueError` otherwise, leaving the state
untouched on failure; on success it changes only `DEFAULT_THEME`, and
`available_themes` still returns the full fixed theme list afterwards. -/
theorem C5_set_theme (t : String) (s : IState) :
    ((set_theme t s).1 = Except.ok () ↔ pyLower t ∈ Themes) ∧
    ((set_theme t s).1 = Except.error PyErr.valueError → (set_theme t s).2 = s) ∧
    ((set_theme t s).1 = Except.ok () →
       (set_theme t s).2 = { s with DEFAULT_THEME := pyLower t }) ∧
    available_themes ((set_theme t s).2) = Themes := by
  by_cases h : Themes.contains (pyLower t) = true
  · have hmem : pyLower t ∈ Themes := by
      simpa using h
    simp [set_theme, h, available_themes, hmem]
  · have hmem : ¬ pyLower t ∈ Themes := by
      simpa using h
    simp [set_theme, h, available_themes, hmem]

/-- Claim C6: the exit callback removes the window's handle from its
registry; a subsequent resolution of that same (in-range) handle finds no
entry and constructs a fresh window object (a different identity from the
closed one); and no non-exit operation of the module ever removes an entry
from either registry. -/
theorem C6_exit_only_deletion (s : IState) (d : PlotDisplay) (e : ImageDisplay)
    (op : Op) (v : Nat)
    (hw1 : 1 ≤ d.window) (hw2 : d.window ≤ MAX_WINDOWS)
    (hoid : d.oid < s.nextOid) :
    regFind ((PlotDisplay.onExit d s).PLOT_DISPLAYS) d.window = none ∧
    regFind ((ImageDisplay.onExit e s).IMG_DISPLAYS) e.window = none ∧
    ((get_plot_window (Int.ofNat d.window) none none none
        (PlotDisplay.onExit d s)).1).oid ≠ d.oid ∧
    ((regFind s.PLOT_DISPLAYS v).isSome = true →
      (regFind ((applyOp op s).PLOT_DISPLAYS) v).isSome = true) ∧
    ((regFind s.IMG_DISPLAYS v).isSome = true →
      (regFind ((applyOp op s).IMG_DISPLAYS) v).isSome = true) := by
  refine ⟨plotDisplay_onExit_find d s, imageDisplay_onExit_find e s, ?_,
    (applyOp_mono op s v).1, (applyOp_mono op s v).2⟩
  have hcl : clamp_win (Int.ofNat d.window) = d.window :=
    clamp_win_of_range d.window hw1 hw2
  rcases get_plot_window_cases (Int.ofNat d.window) none none none
      (PlotDisplay.onExit d s) with ⟨d', hfind, heq⟩ | ⟨hfind, heq⟩
  · rw [hcl, plotDisplay_onExit_find d s] at hfind
    cases hfind
  · rw [heq]
    have hge := (plotDisplay_init_spec (clamp_win (Int.ofNat d.window)) none none
      none (PlotDisplay.onExit d s) hfind).2.2.2.2.1
    rw [plotDisplay_onExit_nextOid d s] at hge
    omega

/-- Witness for C6: closing the sample registered window empties its
registry slot, re-resolving handle 1 yields a new object, and a sample
non-exit operation keeps the entry. -/
theorem C6_witness :
    regFind ((PlotDisplay.onExit sampleDisplay sampleState).PLOT_DISPLAYS)
        sampleDisplay.window = none ∧
    ((get_plot_window (Int.ofNat sampleDisplay.window) none none none
        (PlotDisplay.onExit sampleDisplay sampleState)).1).oid
      ≠ sampleDisplay.oid ∧
    ((regFind sampleState.PLOT_DISPLAYS 1).isSome = true →
      (regFind ((applyOp (Op.opSetTheme "dark") sampleState).PLOT_DISPLAYS) 1).isSome
        = true) := by
  have h := C6_exit_only_deletion sampleState sampleDisplay sampleImage
    (Op.opSetTheme "dark") 1 (by decide) (by decide) (by decide)
  exact ⟨h.1, h.2.2.1, h.2.2.2.1⟩

/-- Counterexample for C7: `contour` does not pass the caller's styling
keywords through unchanged — called with `style='solid'` it overwrites the
entry and delegates the draw with `style='contour'`. -/
theorem C7_counterexample :
    (contour [[0]] none none none 1 none none [("style", KwVal.str "solid")]
        initState).2.calls.head?
      = some (DrawCall.display 1 [[0]] none none none
          [("style", KwVal.str "contour")]) ∧
    [("style", KwVal.str "contour")] ≠ [("style", KwVal.str "solid")] := by
  constructor
  · rfl
  · decide

/-- Claim C7 (amended): `plot_axhline` and `plot_axvline` pass every
caller-supplied styling keyword through to the axes call (and forward the
dictionary verbatim whenever the caller supplied a `label`); `contour`
passes every caller-supplied keyword other than `style` through and
forces `style='contour'`. -/
theorem C7_kwargs_passing (y xmin xmax xv yvmin yvmax : Int) (win : Int)
    (sz : Option (Int × Int)) (kws : KwArgs) (s : IState)
    (m : List (List Int)) (mx my : Option (List Int)) (cm wt : Option String)
    (himg : regFind s.IMG_DISPLAYS (clamp_win win) = none) :
    (∃ o kws1,
      (plot_axhline y xmin xmax win sz false kws s).calls.head?
          = some (DrawCall.axhline o y xmin xmax kws1) ∧
      (∀ p ∈ kws, p ∈ kws1) ∧
      (kwContains kws "label" = true → kws1 = kws)) ∧
    (∃ o kws1,
      (plot_axvline xv yvmin yvmax win sz true kws s).calls.head?
          = some (DrawCall.axvline o xv yvmin yvmax kws1) ∧
      (∀ p ∈ kws, p ∈ kws1) ∧
      (kwContains kws "label" = true → kws1 = kws)) ∧
    (∃ o kws2,
      (contour m mx my cm win wt sz kws s).2.calls.head?
          = some (DrawCall.display o m mx my cm kws2) ∧
      (∀ k v, (k, v) ∈ kws → k ≠ "style" → (k, v) ∈ kws2) ∧
      ("style", KwVal.str "contour") ∈ kws2) := by
  refine ⟨?_, ?_, ?_⟩
  · refine ⟨(get_plot_window win sz none none s).1.oid,
      (if kwContains kws "label" then kws
       else kwSet kws "label" (KwVal.str "_nolegend_")), rfl, ?_, ?_⟩
    · intro p hp
      cases hc : kwContains kws "label"
      · rw [if_neg (by simp [hc]), kwSet_of_not_contains _ _ _ hc]
        exact List.mem_append_left _ hp
      · rw [if_pos (by simp [hc])]
        exact hp
    · intro hc
      rw [if_pos (by simp [hc])]
  · refine ⟨(get_plot_window win sz none none s).1.oid,
      (if kwContains kws "label" then kws
       else kwSet kws "label" (KwVal.str "_nolegend_")), rfl, ?_, ?_⟩
    · intro p hp
      cases hc : kwContains kws "label"
      · rw [if_neg (by simp [hc]), kwSet_of_not_contains _ _ _ hc]
        exact List.mem_append_left _ hp
      · rw [if_pos (by simp [hc])]
        exact hp
    · intro hc
      rw [if_pos (by simp [hc])]
  · rcases get_image_window_cases win sz wt s with ⟨d, hfind, heq⟩ | ⟨hfind, heq⟩
    · rw [himg] at hfind
      cases hfind
    · refine ⟨(ImageDisplay.init (clamp_win win) sz wt s).1.oid,
        kwSet kws "style" (KwVal.str "contour"), ?_, ?_,
        self_mem_kwSet kws "style" (KwVal.str "contour")⟩
      · unfold contour imshow
        rw [heq]
        rfl
      · intro k v hkv hne
        exact mem_kwSet_of_mem kws "style" (KwVal.str "contour") (k, v) hkv hne

/-- Witness for C7 on a concrete empty-registry state and concrete
keywords. -/
theorem C7_witness :
    (∃ o kws1,
      (plot_axhline 5 0 1 1 none false [("color", KwVal.str "red")]
          initState).calls.head?
          = some (DrawCall.axhline o 5 0 1 kws1) ∧
      (∀ p ∈ [("color", KwVal.str "red")], p ∈ kws1) ∧
      (kwContains [("color", KwVal.str "red")] "label" = true
        → kws1 = [("color", KwVal.str "red")])) ∧
    (∃ o kws2,
      (contour [[0]] none none none 1 none none [("color", KwVal.str "red")]
          initState).2.calls.head?
          = some (DrawCall.display o [[0]] none none none kws2) ∧
      (∀ k v, (k, v) ∈ [("color", KwVal.str "red")] → k ≠ "style"
        → (k, v) ∈ kws2) ∧
      ("style", KwVal.str "contour") ∈ kws2) := by
  have h := C7_kwargs_passing 5 0 1 7 0 1 1 none [("color", KwVal.str "red")]
    initState [[0]] none none none none (by rfl)
  exact ⟨h.1, h.2.2⟩

/-- Witness for C5 at the concrete inputs the spec names:
`set_theme("dark")` succeeds and changes only the default, after which
`available_themes` returns the full list; `set_theme("nonexistent")`
fails with `ValueError` and leaves the state unchanged. -/
theorem C5_witness :
    (set_theme "dark" initState).2
      = { initState with DEFAULT_THEME := pyLower "dark" } ∧
    available_themes ((set_theme "dark" initState).2) = Themes ∧
    (set_theme "nonexistent" initState).1 = Except.error PyErr.valueError ∧
    (set_theme "nonexistent" initState).2 = initState := by
  have h1 := C5_set_theme "dark" initState
  have h2 := C5_set_theme "nonexistent" initState
  refine ⟨h1.2.2.1 ?_, h1.2.2.2, ?_, h2.2.1 ?_⟩
  · rfl
  · rfl
  · rfl

theorem kwContains_eq_false_of_kwGet_none (kws : KwArgs) (k : String)
    (h : kwGet kws k = none) : kwContains kws k = false := by
  induction kws with
  | nil => rfl
  | cons p rest ih =>
    by_cases hp : p.1 == k
    · simp [kwGet, hp] at h
    · simp [kwGet, hp] at h
      simp [kwContains, hp, ih h]

theorem kwGet_append_single (kws : KwArgs) (k k2 : String) (v : KwVal)
    (hne : k2 ≠ k) : kwGet (kws ++ [(k2, v)]) k = kwGet kws k := by
  rw [kwGet_append]
  cases hg : kwGet kws k
  · simp [kwGet, hne]
  · rfl

theorem run_get_wxapp_of_some (n : Nat) (s : IState) (a : Nat)
    (h : s.wxapp = some a) : run_get_wxapp n s = (List.replicate n a, s) := by
  induction n with
  | zero => rfl
  | succ n ih =>
    unfold run_get_wxapp
    rw [get_wxapp_of_some false true s a h]
    simp [ih, List.replicate_succ]

/-- Claim C8: `get_wxapp` is idempotent — over any number of calls on a
process that has not yet constructed an application, at most one `wx.App`
is ever constructed, every call returns the same application object, and
when an application is already running in the environment the first call
reuses it without constructing anything. -/
theorem C8_get_wxapp_idempotent (n : Nat) (s : IState)
    (h0 : s.appsMade = 0) :
    ((run_get_wxapp n s).2.appsMade ≤ 1) ∧
    (∀ a ∈ (run_get_wxapp n s).1, ∀ b ∈ (run_get_wxapp n s).1, a = b) ∧
    (∀ e, s.wxapp = none → s.envApp = some e → ∀ r c,
      (get_wxapp r c s).1 = e ∧ (get_wxapp r c s).2.appsMade = s.appsMade) := by
  refine ⟨?_, ?_, ?_⟩
  · cases n with
    | zero =>
      simpa [run_get_wxapp] using Nat.le_of_eq h0 |>.trans (by norm_num)
    | succ n =>
      have hw : ((get_wxapp false true s).2).wxapp
          = some (get_wxapp false true s).1 :=
        (get_wxapp_effects false true s).2.2.2.2.2.2
      have hm : ((get_wxapp false true s).2).appsMade ≤ s.appsMade + 1 :=
        (get_wxapp_effects false true s).2.2.2.2.2.1
      have hrun : run_get_wxapp (Nat.succ n) s
          = ((get_wxapp false true s).1
              :: List.replicate n (get_wxapp false true s).1,
             (get_wxapp false true s).2) := by
        unfold run_get_wxapp
        simp only [run_get_wxapp_of_some n _ _ hw]
      rw [hrun]
      show (get_wxapp false true s).2.appsMade ≤ 1
      omega
  · cases n with
    | zero =>
      intro a ha
      simp [run_get_wxapp] at ha
    | succ n =>
      have hw : ((get_wxapp false true s).2).wxapp
          = some (get_wxapp false true s).1 :=
        (get_wxapp_effects false true s).2.2.2.2.2.2
      have hrun : run_get_wxapp (Nat.succ n) s
          = ((get_wxapp false true s).1
              :: List.replicate n (get_wxapp false true s).1,
             (get_wxapp false true s).2) := by
        unfold run_get_wxapp
        simp only [run_get_wxapp_of_some n _ _ hw]
      rw [hrun]
      intro a ha b hb
      simp only [List.mem_cons] at ha hb
      have hval : ∀ c, c = (get_wxapp false true s).1
          ∨ c ∈ List.replicate n (get_wxapp false true s).1
          → c = (get_wxapp false true s).1 := by
        intro c hc
        rcases hc with hc | hc
        · exact hc
        · exact List.eq_of_mem_replicate hc
      rw [hval a ha, hval b hb]
  · intro e h1 h2 r c
    rw [get_wxapp_of_env r c s e h1 h2]
    exact ⟨rfl, rfl⟩

/-- Witness for C8 on a concrete fresh state whose environment already
runs application 7: three calls construct nothing and the first call
returns 7. -/
theorem C8_witness :
    ((run_get_wxapp 3 { initState with envApp := some 7 }).2.appsMade ≤ 1) ∧
    (get_wxapp false false { initState with envApp := some 7 }).1 = 7 := by
  have h := C8_get_wxapp_idempotent 3 { initState with envApp := some 7 } rfl
  exact ⟨h.1, (h.2.2 7 rfl rfl false false).1⟩

/-- Claim C9: `newplot(x, y, win=win, wintitle=wintitle, **kws)` is the
same call as `plot(x, y, win=win, wintitle=wintitle, new=True, **kws)`:
for keyword dictionaries that do not themselves bind `new`, both produce
the same return value and the same final state. -/
theorem C9_newplot_equiv (x y : List Int) (win : Int) (wt : Option String)
    (kws : KwArgs) (s : IState) (h : kwGet kws "new" = none) :
    newplot x y win wt kws s
      = plot x y win true (kwSize (kwGet kws "size")) wt
          (kwStr (kwGet kws "theme")) (kwErase (kwErase kws "size") "theme") s := by
  have hc : kwContains kws "new" = false :=
    kwContains_eq_false_of_kwGet_none kws "new" h
  have hset : kwSet kws "new" (KwVal.bool true) = kws ++ [("new", KwVal.bool true)] :=
    kwSet_of_not_contains kws "new" (KwVal.bool true) hc
  have hnew : kwBool (kwGet (kws ++ [("new", KwVal.bool true)]) "new") = true := by
    rw [kwGet_append, h]
    rfl
  have hsize : kwGet (kws ++ [("new", KwVal.bool true)]) "size" = kwGet kws "size" :=
    kwGet_append_single kws "size" "new" (KwVal.bool true) (by decide)
  have htheme : kwGet (kws ++ [("new", KwVal.bool true)]) "theme" = kwGet kws "theme" :=
    kwGet_append_single kws "theme" "new" (KwVal.bool true) (by decide)
  have herase : kwErase (kws ++ [("new", KwVal.bool true)]) "new" = kws := by
    rw [kwErase_append, kwErase_of_not_contains kws "new" hc]
    simp [kwErase]
  unfold newplot plot_splat
  rw [hset, hnew, hsize, htheme, herase]

/-- Witness for C9 on concrete arrays and a concrete styling keyword. -/
theorem C9_witness :
    newplot [0] [1] 1 none [("color", KwVal.str "red")] initState
      = plot [0] [1] 1 true (kwSize (kwGet [("color", KwVal.str "red")] "size"))
          none (kwStr (kwGet [("color", KwVal.str "red")] "theme"))
          (kwErase (kwErase [("color", KwVal.str "red")] "size") "theme")
          initState :=
  C9_newplot_equiv [0] [1] 1 none [("color", KwVal.str "red")] initState rfl

/-- Claim C10: the two reference-line forwarders disagree on
`delay_draw`: `plot_axvline` performs the canvas draw exactly when
`delay_draw` is false, while `plot_axhline` performs it exactly when
`delay_draw` is true — so `plot_axhline` with the default
`delay_draw=False` never triggers a canvas draw. -/
theorem C10_delay_draw_asymmetry (y xmin xmax xv yvmin yvmax : Int)
    (win : Int) (sz : Option (Int × Int)) (delay : Bool) (kws : KwArgs)
    (s : IState) :
    countDraws (plot_axvline xv yvmin yvmax win sz delay kws s).calls
      = countDraws s.calls + (if delay then 0 else 1) ∧
    countDraws (plot_axhline y xmin xmax win sz delay kws s).calls
      = countDraws s.calls + (if delay then 1 else 0) := by
  have hg := get_plot_window_countDraws win sz none none s
  unfold plot_axvline plot_axhline
  cases delay <;>
    simp [countDraws_cons, isCanvasDraw, hg] <;>
    omega

end Wxmplot
